import Mathlib

/-!
Verification of FreeRTOScpp `TaskCPP.h` (FreeRTOS C++ task wrapper).

The development shallowly embeds the wrapper's code:

* the `TaskPriority` enum (TaskCPP.h lines 63-70) becomes a family of pure
  functions of `N = configMAX_PRIORITIES`, since the enumerators are
  compile-time integer expressions in `configMAX_PRIORITIES`;
* the `Task` class state is a structure holding the `handle` field; each
  member function becomes a state transformer that also emits the list of
  scheduler-primitive calls it issues; the scheduler itself is an external
  collaborator, so primitives that produce values (`xTaskCreate`'s written
  handle, `uxTaskPriorityGet`, `xTaskResumeFromISR`) are supplied as
  parameters of the embedded operation;
* the `TaskClass::taskfun` trampoline (TaskCPP.h lines 269-279) becomes a
  small statement list run by an interpreter whose state records the
  `handle` field, the trace of primitive calls, and whether the executing
  context has self-deleted (`vTaskDelete(0)` deletes the calling task and
  does not return).
-/

namespace FreeRTOScpp

/-! ## Priority tiers (TaskCPP.h lines 63-70)

In the C++ source each enumerator is an integer constant expression in
`configMAX_PRIORITIES`; a comparison such as `(configMAX_PRIORITIES)>1`
has value 1 when true and 0 when false. `N` stands for
`configMAX_PRIORITIES`. Arithmetic is C++ `int` arithmetic, embedded
as `Int` (no overflow occurs for realistic `N`). -/

/-- TaskPrio_Idle = 0. -/
def TaskPrio_Idle (N : Int) : Int := 0

/-- TaskPrio_Low = ((configMAX_PRIORITIES)>1). -/
def TaskPrio_Low (N : Int) : Int := if N > 1 then 1 else 0

/-- TaskPrio_HMI = (TaskPrio_Low + ((configMAX_PRIORITIES)>5)). -/
def TaskPrio_HMI (N : Int) : Int := TaskPrio_Low N + (if N > 5 then 1 else 0)

/-- TaskPrio_Mid = ((configMAX_PRIORITIES)/2); C++ integer division. -/
def TaskPrio_Mid (N : Int) : Int := N / 2

/-- TaskPrio_High = ((configMAX_PRIORITIES)-1-((configMAX_PRIORITIES)>4)). -/
def TaskPrio_High (N : Int) : Int := N - 1 - (if N > 4 then 1 else 0)

/-- TaskPrio_Highest = ((configMAX_PRIORITIES)-1). -/
def TaskPrio_Highest (N : Int) : Int := N - 1

/-! Spec-side formulas, written from spec.md section 4.1
("Algorithm (must reproduce exactly)"), for the refinement claim C1. -/

/-- Spec formula: Idle = 0. -/
def specTier_Idle (N : Int) : Int := 0

/-- Spec formula: Low = 1 if N > 1 else 0. -/
def specTier_Low (N : Int) : Int := if N > 1 then 1 else 0

/-- Spec formula: HMI = Low + (1 if N > 5 else 0). -/
def specTier_HMI (N : Int) : Int := specTier_Low N + (if N > 5 then 1 else 0)

/-- Spec formula: Mid = N / 2 (integer division). -/
def specTier_Mid (N : Int) : Int := N / 2

/-- Spec formula: High = N - 1 - (1 if N > 4 else 0). -/
def specTier_High (N : Int) : Int := N - 1 - (if N > 4 then 1 else 0)

/-- Spec formula: Highest = N - 1. -/
def specTier_Highest (N : Int) : Int := N - 1

/-! ## Task wrapper state (TaskCPP.h lines 107-206)

`TaskHandle_t` is an opaque scheduler handle (a pointer in FreeRTOS);
it is modelled as a natural number with 0 playing the role of the null
handle, matching the source's `if(handle)` test and `handle = 0` write. -/

/-- TaskHandle_t, the scheduler-level thread handle; 0 is the null handle. -/
abbrev TaskHandle_t := Nat

/-- Observable actions of the wrapper code: calls into the external
scheduler primitives, the invocation of the virtual `task()` body, and
the write to the stored `handle` field performed by the trampoline. -/
inductive Event where
  | xTaskCreate (name : String) (stackDepth : Nat) (priority : Int)
      (result : TaskHandle_t)
  | vTaskDelete (arg : TaskHandle_t)
  | vTaskPrioritySet (h : TaskHandle_t) (p : Int)
  | vTaskSuspend (h : TaskHandle_t)
  | vTaskResume (h : TaskHandle_t)
  | xTaskResumeFromISR (h : TaskHandle_t)
  | vTaskDelay (ticks : Nat)
  | runTask
  | writeHandle (v : TaskHandle_t)
  deriving DecidableEq, Repr

/-- State of a `Task` object: its single data member
`TaskHandle_t handle` (TaskCPP.h line 196). -/
structure Task where
  handle : TaskHandle_t
  deriving DecidableEq, Repr

/-- Task::Task (TaskCPP.h lines 122-125):
`xTaskCreate(taskfun, name, stackDepth, parm, priority, &handle);`.
The external scheduler writes its result through `&handle`; `created` is
that result, 0 (null) on creation failure (spec sections 3 and 6: the
creation primitive yields a possibly-absent resource handle, and callers
must treat a null/absent resource as creation failure). -/
def Task.construct (name : String) (priority : Int) (stackDepth : Nat)
    (created : TaskHandle_t) : Task × List Event :=
  (⟨created⟩, [Event.xTaskCreate name stackDepth priority created])

/-- Task::getHandle (TaskCPP.h line 144): `return handle;`. -/
def Task.getHandle (t : Task) : TaskHandle_t := t.handle

/-- Task::priority() const (TaskCPP.h line 153):
`uxTaskPriorityGet(handle)` cast to `TaskPriority`; the primitive's
answer is supplied by the environment function `ux`. -/
def Task.priorityGet (ux : TaskHandle_t → Int) (t : Task) : Int × Task :=
  (ux t.handle, t)

/-- Task::priority(TaskPriority) (TaskCPP.h line 163):
`vTaskPrioritySet(handle, priority);`. -/
def Task.prioritySet (priority : Int) (t : Task) : Task × List Event :=
  (t, [Event.vTaskPrioritySet t.handle priority])

/-- Task::suspend (TaskCPP.h line 172): `vTaskSuspend(handle);`. -/
def Task.suspend (t : Task) : Task × List Event :=
  (t, [Event.vTaskSuspend t.handle])

/-- Task::resume (TaskCPP.h line 179): `vTaskResume(handle);`. -/
def Task.resume (t : Task) : Task × List Event :=
  (t, [Event.vTaskResume t.handle])

/-- Task::resume_ISR (TaskCPP.h line 190):
`return xTaskResumeFromISR(handle);`. The primitive's boolean
"needs context switch" answer is supplied by the environment
function `prim`. -/
def Task.resume_ISR (prim : TaskHandle_t → Bool) (t : Task) : Bool × Task :=
  (prim t.handle, t)

/-- Task::~Task with INCLUDE_vTaskDelete enabled (TaskCPP.h lines 131-138):
`if(handle){ vTaskDelete(handle); } return;`. Note the destructor does
not modify the stored `handle` field. -/
def Task.destruct (t : Task) : Task × List Event :=
  if t.handle ≠ 0 then (t, [Event.vTaskDelete t.handle]) else (t, [])

/-! ## The TaskClass trampoline (TaskCPP.h lines 269-279)

The trampoline body is embedded as a list of statements run by a small
interpreter. The interpreter state carries the object's `handle` field,
the trace of events, and a `halted` flag set when the executing context
self-deletes via `vTaskDelete(0)` (which does not return); once `halted`
is set no further statement executes. -/

/-- Statements appearing in the trampoline body. -/
inductive Stmt where
  | callTask
  | setHandle (v : TaskHandle_t)
  | vTaskDelete (arg : TaskHandle_t)
  | vTaskDelay (ticks : Nat)
  deriving DecidableEq, Repr

/-- Interpreter state for the trampoline: the managed object's `handle`
field, the event trace, and whether the executing context has been
deleted (self-deletion does not return). -/
structure ExecState where
  handle : TaskHandle_t
  trace : List Event
  halted : Bool
  deriving DecidableEq, Repr

/-- Effect of one statement. `vTaskDelete` with a null (0) argument
deletes the calling task, so the context halts there. -/
def stepStmt (s : ExecState) : Stmt → ExecState
  | Stmt.callTask => { s with trace := s.trace ++ [Event.runTask] }
  | Stmt.setHandle v =>
      { s with handle := v, trace := s.trace ++ [Event.writeHandle v] }
  | Stmt.vTaskDelete a =>
      { s with trace := s.trace ++ [Event.vTaskDelete a],
               halted := s.halted || a == 0 }
  | Stmt.vTaskDelay ticks =>
      { s with trace := s.trace ++ [Event.vTaskDelay ticks] }

/-- Run a statement list; a halted (self-deleted) context executes
nothing further. -/
def execStmts : List Stmt → ExecState → ExecState
  | [], s => s
  | c :: cs, s => if s.halted then s else execStmts cs (stepStmt s c)

/-- TaskClass::taskfun body after `task()` is entered, with
INCLUDE_vTaskDelete enabled (TaskCPP.h lines 269-274):
`task(); ... handle = 0; vTaskDelete(0);`. -/
def taskfunDeleteBody : List Stmt :=
  [Stmt.callTask, Stmt.setHandle 0, Stmt.vTaskDelete 0]

/-- Guard of the `while(1)` fallback loop in the no-delete branch
(TaskCPP.h line 276): the constant true. -/
def fallbackLoopGuard : Bool := true

/-- State after n iterations of the fallback loop body
`vTaskDelay(portMAX_DELAY)` (TaskCPP.h lines 276-277); `maxDelay`
stands for the port-defined constant portMAX_DELAY. -/
def fallbackLoop (maxDelay : Nat) (s : ExecState) : Nat → ExecState
  | 0 => s
  | n + 1 => stepStmt (fallbackLoop maxDelay s n) (Stmt.vTaskDelay maxDelay)

/-- TaskClass::taskfun with INCLUDE_vTaskDelete disabled
(TaskCPP.h lines 269-271 and 275-278), observed after `task()` has
returned and n iterations of the fallback loop have run. -/
def taskfunNoDelete (maxDelay : Nat) (s : ExecState) (n : Nat) : ExecState :=
  fallbackLoop maxDelay (stepStmt s Stmt.callTask) n

/-! ## Helper lemmas -/

/-- A halted (self-deleted) context executes no statement. -/
theorem execStmts_of_halted (l : List Stmt) (s : ExecState)
    (h : s.halted = true) : execStmts l s = s := by
  cases l <;> simp [execStmts, h]

/-- Running a concatenation runs the two parts in order. -/
theorem execStmts_append (a b : List Stmt) (s : ExecState) :
    execStmts (a ++ b) s = execStmts b (execStmts a s) := by
  induction a generalizing s with
  | nil => rfl
  | cons c cs ih =>
      by_cases h : s.halted
      · simp [execStmts, h, execStmts_of_halted b s h]
      · simp [execStmts, h, ih]

/-! ## Claims -/

/-- C1: For every configured priority-level count N >= 1, the six priority
tiers of the source enum evaluate exactly to the spec's formulas:
Idle = 0; Low = 1 if N > 1 else 0; HMI = Low + (1 if N > 5 else 0);
Mid = N / 2 (integer division); High = N - 1 - (1 if N > 4 else 0);
Highest = N - 1. -/
theorem priority_tiers_match_spec_formulas (N : Int) (hN : 1 ≤ N) :
    TaskPrio_Idle N = specTier_Idle N ∧
    TaskPrio_Low N = specTier_Low N ∧
    TaskPrio_HMI N = specTier_HMI N ∧
    TaskPrio_Mid N = specTier_Mid N ∧
    TaskPrio_High N = specTier_High N ∧
    TaskPrio_Highest N = specTier_Highest N := by
  refine ⟨rfl, rfl, ?_, rfl, rfl, rfl⟩
  simp only [TaskPrio_HMI, specTier_HMI, TaskPrio_Low, specTier_Low]

/-- Witness for C1 at N = 6. -/
theorem priority_tiers_match_spec_formulas_at_6 :
    (1 : Int) ≤ 6 ∧
    (TaskPrio_Idle 6 = specTier_Idle 6 ∧
     TaskPrio_Low 6 = specTier_Low 6 ∧
     TaskPrio_HMI 6 = specTier_HMI 6 ∧
     TaskPrio_Mid 6 = specTier_Mid 6 ∧
     TaskPrio_High 6 = specTier_High 6 ∧
     TaskPrio_Highest 6 = specTier_Highest 6) :=
  ⟨by decide, priority_tiers_match_spec_formulas 6 (by decide)⟩

/-- C2: For every priority-level count N >= 1, the tier ordinals satisfy
Idle <= Low <= HMI <= Mid <= High <= Highest, with Idle = 0,
Highest = N - 1, and no tier's ordinal exceeding N - 1. -/
theorem priority_tiers_ordered (N : Int) (hN : 1 ≤ N) :
    TaskPrio_Idle N ≤ TaskPrio_Low N ∧
    TaskPrio_Low N ≤ TaskPrio_HMI N ∧
    TaskPrio_HMI N ≤ TaskPrio_Mid N ∧
    TaskPrio_Mid N ≤ TaskPrio_High N ∧
    TaskPrio_High N ≤ TaskPrio_Highest N ∧
    TaskPrio_Idle N = 0 ∧
    TaskPrio_Highest N = N - 1 ∧
    TaskPrio_Idle N ≤ N - 1 ∧
    TaskPrio_Low N ≤ N - 1 ∧
    TaskPrio_HMI N ≤ N - 1 ∧
    TaskPrio_Mid N ≤ N - 1 ∧
    TaskPrio_High N ≤ N - 1 ∧
    TaskPrio_Highest N ≤ N - 1 := by
  simp only [TaskPrio_Idle, TaskPrio_Low, TaskPrio_HMI, TaskPrio_Mid,
    TaskPrio_High, TaskPrio_Highest]
  split_ifs <;> simp only [true_and, and_true] <;> omega

/-- Witness for C2 at N = 10. -/
theorem priority_tiers_ordered_at_10 :
    (1 : Int) ≤ 10 ∧ TaskPrio_HMI 10 ≤ TaskPrio_Mid 10 :=
  ⟨by decide, (priority_tiers_ordered 10 (by decide)).2.2.1⟩

/-- C3 counterexample: the claim's N = 2 table says High = 0, but the code
gives TaskPrio_High 2 = 2 - 1 - 0 = 1. -/
theorem priority_table_N2_high_refuted : ¬ TaskPrio_High 2 = 0 := by decide

/-- C3 (amended): the mapping matches the quoted tables with the N = 2
High entry corrected from 0 to 1: for N=1 all six tiers are 0; for N=2
the tiers (Idle,Low,HMI,Mid,High,Highest) are (0,1,1,1,1,1); for N=6
they are (0,1,2,3,4,5); for N=10 they are (0,1,2,5,8,9). -/
theorem priority_tables :
    (TaskPrio_Idle 1 = 0 ∧ TaskPrio_Low 1 = 0 ∧ TaskPrio_HMI 1 = 0 ∧
     TaskPrio_Mid 1 = 0 ∧ TaskPrio_High 1 = 0 ∧ TaskPrio_Highest 1 = 0) ∧
    (TaskPrio_Idle 2 = 0 ∧ TaskPrio_Low 2 = 1 ∧ TaskPrio_HMI 2 = 1 ∧
     TaskPrio_Mid 2 = 1 ∧ TaskPrio_High 2 = 1 ∧ TaskPrio_Highest 2 = 1) ∧
    (TaskPrio_Idle 6 = 0 ∧ TaskPrio_Low 6 = 1 ∧ TaskPrio_HMI 6 = 2 ∧
     TaskPrio_Mid 6 = 3 ∧ TaskPrio_High 6 = 4 ∧ TaskPrio_Highest 6 = 5) ∧
    (TaskPrio_Idle 10 = 0 ∧ TaskPrio_Low 10 = 1 ∧ TaskPrio_HMI 10 = 2 ∧
     TaskPrio_Mid 10 = 5 ∧ TaskPrio_High 10 = 8 ∧
     TaskPrio_Highest 10 = 9) := by
  decide

/-- C4: With deletion compiled in, when the virtual task body returns to
the trampoline: the state in which the self-deletion statement runs
already has handle = 0 (the null write happens first), the trace after
the body is run, write-null, self-delete in that order, the context is
then halted, and appending any further statements to the trampoline
changes nothing (no code executes after the self-deletion call). -/
theorem taskfun_delete_behaviour (s : ExecState) (h : s.halted = false)
    (extra : List Stmt) :
    (execStmts (List.take 2 taskfunDeleteBody) s).handle = 0 ∧
    (execStmts taskfunDeleteBody s).trace
      = s.trace ++ [Event.runTask, Event.writeHandle 0, Event.vTaskDelete 0] ∧
    (execStmts taskfunDeleteBody s).halted = true ∧
    execStmts (taskfunDeleteBody ++ extra) s = execStmts taskfunDeleteBody s := by
  refine ⟨?_, ?_, ?_, ?_⟩
  · simp [taskfunDeleteBody, execStmts, stepStmt, h]
  · simp [taskfunDeleteBody, execStmts, stepStmt, h]
  · simp [taskfunDeleteBody, execStmts, stepStmt, h]
  · rw [execStmts_append]
    apply execStmts_of_halted
    simp [taskfunDeleteBody, execStmts, stepStmt, h]

/-- Witness for C4 at a concrete running context with handle 7. -/
theorem taskfun_delete_behaviour_check :
    (ExecState.halted ⟨7, [], false⟩ = false) ∧
    ((execStmts (List.take 2 taskfunDeleteBody) ⟨7, [], false⟩).handle = 0 ∧
     (execStmts taskfunDeleteBody ⟨7, [], false⟩).trace
       = [] ++ [Event.runTask, Event.writeHandle 0, Event.vTaskDelete 0] ∧
     (execStmts taskfunDeleteBody ⟨7, [], false⟩).halted = true ∧
     execStmts (taskfunDeleteBody ++ [Stmt.vTaskDelay 1]) ⟨7, [], false⟩
       = execStmts taskfunDeleteBody ⟨7, [], false⟩) :=
  ⟨rfl, taskfun_delete_behaviour ⟨7, [], false⟩ rfl [Stmt.vTaskDelay 1]⟩

/-- C5: With deletion compiled out, after the virtual task body returns
the trampoline is in the `while(1)` fallback loop: the loop guard is the
constant true (so the loop never exits and the entry function never
completes), after any n iterations the trace is exactly the task-body
run followed by n maximal delays, the handle field and halted flag are
untouched, and the next observable step is always one more maximal
delay. -/
theorem taskfun_nodelete_loops_forever (maxDelay : Nat) (s : ExecState)
    (n : Nat) :
    fallbackLoopGuard = true ∧
    (taskfunNoDelete maxDelay s n).trace
      = s.trace ++ Event.runTask :: List.replicate n (Event.vTaskDelay maxDelay) ∧
    (taskfunNoDelete maxDelay s n).handle = s.handle ∧
    (taskfunNoDelete maxDelay s n).halted = s.halted ∧
    taskfunNoDelete maxDelay s (n + 1)
      = stepStmt (taskfunNoDelete maxDelay s n) (Stmt.vTaskDelay maxDelay) := by
  refine ⟨rfl, ?_, ?_, ?_, rfl⟩ <;>
    induction n with
    | zero => simp [taskfunNoDelete, fallbackLoop, stepStmt]
    | succ n ih =>
        simp [taskfunNoDelete, fallbackLoop, stepStmt] at ih ⊢
        simp [ih, List.replicate_succ']

/-- C6 counterexample: destroying a task whose handle is 5 twice in
sequence: the second run does not observe an absent resource (the
destructor leaves handle = 5 in place) and it issues a second
vTaskDelete call rather than none. -/
theorem destructor_double_delete :
    ¬ ((Task.destruct ⟨5⟩).1.handle = 0 ∧
       (Task.destruct (Task.destruct ⟨5⟩).1).2 = []) := by
  decide

/-- C6 (amended): with deletion compiled in, destroying a task whose
stored resource is present issues exactly one scheduler deletion call
and leaves the stored handle unchanged; hence a second destruction run
in sequence observes the still-present resource and issues exactly one
further deletion call. -/
theorem destructor_single_delete_per_run (t : Task) (h : t.handle ≠ 0) :
    (Task.destruct t).2 = [Event.vTaskDelete t.handle] ∧
    (Task.destruct t).1 = t ∧
    (Task.destruct (Task.destruct t).1).2 = [Event.vTaskDelete t.handle] := by
  simp [Task.destruct, h]

/-- Witness for C6 (amended) at handle 5. -/
theorem destructor_single_delete_per_run_check :
    (Task.handle ⟨5⟩ ≠ 0) ∧
    ((Task.destruct ⟨5⟩).2 = [Event.vTaskDelete 5] ∧
     (Task.destruct ⟨5⟩).1 = (⟨5⟩ : Task) ∧
     (Task.destruct (Task.destruct ⟨5⟩).1).2 = [Event.vTaskDelete 5]) :=
  ⟨by decide, destructor_single_delete_per_run ⟨5⟩ (by decide)⟩

/-- C7: After the constructor runs, the handle accessor returns exactly
what the scheduler's creation primitive wrote through &handle; in
particular when creation failed (null result) the stored handle is the
null value, so callers can detect creation failure through getHandle. -/
theorem construct_failure_observable (name : String) (priority : Int)
    (stackDepth : Nat) (created : TaskHandle_t) (h : created = 0) :
    (Task.construct name priority stackDepth created).1.getHandle = created ∧
    (Task.construct name priority stackDepth created).1.getHandle = 0 := by
  exact ⟨rfl, h⟩

/-- Witness for C7 at a concrete failed creation. -/
theorem construct_failure_observable_check :
    ((0 : TaskHandle_t) = 0) ∧
    ((Task.construct "T" 1 128 0).1.getHandle = 0 ∧
     (Task.construct "T" 1 128 0).1.getHandle = 0) :=
  ⟨rfl, construct_failure_observable "T" 1 128 0 rfl⟩

/-- C8: resume_ISR returns the scheduler primitive's "needs context
switch" boolean unmodified: for every stored handle and every boolean
the primitive can produce there, the wrapper's result is that boolean. -/
theorem resume_ISR_passthrough (prim : TaskHandle_t → Bool) (t : Task)
    (b : Bool) (h : prim t.handle = b) :
    (Task.resume_ISR prim t).1 = b := by
  simpa [Task.resume_ISR] using h

/-- Witness for C8 with a primitive answering true on handle 3. -/
theorem resume_ISR_passthrough_check :
    ((fun _ : TaskHandle_t => true) (Task.handle ⟨3⟩) = true) ∧
    (Task.resume_ISR (fun _ => true) ⟨3⟩).1 = true :=
  ⟨rfl, resume_ISR_passthrough (fun _ => true) ⟨3⟩ true rfl⟩

/-- C10: The stored handle field is written only by the creation
primitive's result in the constructor and by the null write in the
trampoline's deletion branch; the accessor, priority get and set,
suspend, resume, resume-from-ISR, the destructor, and the other
trampoline statements all leave the handle unchanged. -/
theorem handle_frame_conditions (t : Task) (ux : TaskHandle_t → Int)
    (prim : TaskHandle_t → Bool) (p : Int) (name : String) (pr : Int)
    (d : Nat) (created : TaskHandle_t) (s : ExecState) (a : TaskHandle_t)
    (ticks : Nat) :
    (Task.construct name pr d created).1.handle = created ∧
    Task.getHandle t = t.handle ∧
    (Task.priorityGet ux t).2.handle = t.handle ∧
    (Task.prioritySet p t).1.handle = t.handle ∧
    (Task.suspend t).1.handle = t.handle ∧
    (Task.resume t).1.handle = t.handle ∧
    (Task.resume_ISR prim t).2.handle = t.handle ∧
    (Task.destruct t).1.handle = t.handle ∧
    (stepStmt s Stmt.callTask).handle = s.handle ∧
    (stepStmt s (Stmt.vTaskDelete a)).handle = s.handle ∧
    (stepStmt s (Stmt.vTaskDelay ticks)).handle = s.handle ∧
    (stepStmt s (Stmt.setHandle 0)).handle = 0 := by
  refine ⟨rfl, rfl, rfl, rfl, rfl, rfl, rfl, ?_, rfl, rfl, rfl, rfl⟩
  unfold Task.destruct
  split <;> rfl

end FreeRTOScpp
